import Mathlib

/-
Verification of the Flask users CRUD service (src/main.py) against its
specification.  The service keeps a single sqlite table

    users (id INTEGER PRIMARY KEY AUTOINCREMENT,
           name TEXT NOT NULL,
           email TEXT UNIQUE NOT NULL,
           created_at TEXT NOT NULL)

and exposes GET /, GET /users, POST /users, GET/PUT/DELETE /users/<int:id>.
We shallowly embed the table as a list of rows plus the AUTOINCREMENT
counter, the sqlite statements as pure functions (the UNIQUE constraint
surfaces as an Option: none models sqlite3.IntegrityError, which leaves the
table untouched because the failing statement has no effect and commit is
never reached), and each Flask view function as a function from the state
and the decoded request to a (status, body) pair and the new state.
-/

namespace FlaskUsers

/-- One persisted row of the users table. -/
structure User where
  id : Nat
  name : String
  email : String
  created_at : String
deriving DecidableEq, Repr

/-- The database state: the rows of the users table in insertion order,
and the AUTOINCREMENT counter (the id the next INSERT will be assigned;
sqlite starts at 1 and never reuses ids). -/
structure DB where
  rows : List User
  nextId : Nat
deriving DecidableEq, Repr

/-- The freshly initialised database produced by init_db. -/
def emptyDB : DB := ⟨[], 1⟩

/-- The value a JSON object carries for a given key, as seen by Python:
the key may be absent, explicitly null, or a string.  data.get returns
None for both absent and null; Python truthiness of a string is
non-emptiness. -/
inductive Field where
  | absent : Field
  | null : Field
  | str : String → Field
deriving DecidableEq, Repr

/-- Python truthiness of data.get for this field: None (absent key or
null value) and the empty string are falsy. -/
def Field.truthy : Field → Bool
  | .absent => false
  | .null => false
  | .str s => !s.isEmpty

/-- The string the handler inserts when the field is truthy (only used
in that case). -/
def Field.val : Field → String
  | .str s => s
  | .absent => ""
  | .null => ""

/-- The decoded request body.  invalid models request.get_json()
returning None (no JSON body); obj name email others models a JSON
object with the given name and email fields, where others records
whether the object carries any further keys (they make the dict
non-empty but are otherwise ignored by the handlers). -/
inductive ReqBody where
  | invalid : ReqBody
  | obj : Field → Field → Bool → ReqBody
deriving DecidableEq, Repr

/-- Python truthiness of the decoded dict (the handlers' `if not data`
check): a dict is truthy iff it has at least one key. -/
def bodyTruthy (name email : Field) (others : Bool) : Bool :=
  name != .absent || email != .absent || others

/-- The JSON bodies the service produces: a message envelope, an error
envelope, a serialized user, the user list, or the GET / payload. -/
inductive RespBody where
  | message : String → RespBody
  | error : String → RespBody
  | user : User → RespBody
  | userList : List User → RespBody
  | home : RespBody
deriving DecidableEq, Repr

/-- An HTTP response: status code and JSON body. -/
abbrev Resp := Nat × RespBody

/-- INSERT INTO users (name, email, created_at) VALUES (?, ?, ?):
none models the IntegrityError raised when the UNIQUE constraint on
email is violated (the table is then unchanged); otherwise the row is
appended with the AUTOINCREMENT id. -/
def insert_row (st : DB) (nm em ca : String) : Option DB :=
  if st.rows.any (fun r => r.email == em) then none
  else some ⟨st.rows ++ [⟨st.nextId, nm, em, ca⟩], st.nextId + 1⟩

/-- UPDATE users SET name = ?, email = ? WHERE id = ?: none models the
IntegrityError raised when the row being updated would take an email
already held by a different row; otherwise every row whose id matches
gets the new name and email (id is the primary key, so at most one row
matches in any reachable state). -/
def update_row (st : DB) (uid : Nat) (nm em : String) : Option DB :=
  if st.rows.any (fun r => r.id == uid) &&
     st.rows.any (fun r => r.id != uid && r.email == em) then none
  else some ⟨st.rows.map (fun r =>
    if r.id = uid then { r with name := nm, email := em } else r), st.nextId⟩

/-- DELETE FROM users WHERE id = ?: returns the new table and
cursor.rowcount, the number of rows removed. -/
def delete_row (st : DB) (uid : Nat) : DB × Nat :=
  (⟨st.rows.filter (fun r => r.id != uid), st.nextId⟩,
   (st.rows.filter (fun r => r.id == uid)).length)

/-- SELECT * FROM users WHERE id = ? followed by fetchone: the first
matching row, if any. -/
def findUser (st : DB) (uid : Nat) : Option User :=
  st.rows.find? (fun r => r.id == uid)

/-- View function create_user (POST /users, src/main.py lines 81-103). -/
def create_user (st : DB) (now : String) (body : ReqBody) : Resp × DB :=
  match body with
  | .invalid => ((400, .error "JSON body required"), st)
  | .obj name email others =>
    if !(bodyTruthy name email others) then
      ((400, .error "JSON body required"), st)
    else if !name.truthy || !email.truthy then
      ((400, .error "Name and email are required"), st)
    else
      match insert_row st name.val email.val now with
      | none => ((409, .error "Email already exists"), st)
      | some st' => ((201, .message "User created"), st')

/-- View function get_user (GET /users/<int:user_id>, lines 106-116). -/
def get_user (st : DB) (uid : Nat) : Resp × DB :=
  match findUser st uid with
  | none => ((404, .error "User not found"), st)
  | some u => ((200, .user u), st)

/-- View function get_users (GET /users, lines 74-78). -/
def get_users (st : DB) : Resp × DB := ((200, .userList st.rows), st)

/-- View function update_user (PUT /users/<int:user_id>, lines 119-151). -/
def update_user (st : DB) (uid : Nat) (body : ReqBody) : Resp × DB :=
  match body with
  | .invalid => ((400, .error "JSON body required"), st)
  | .obj name email others =>
    if !(bodyTruthy name email others) then
      ((400, .error "JSON body required"), st)
    else if !name.truthy && !email.truthy then
      ((400, .error "Nothing to update"), st)
    else
      match findUser st uid with
      | none => ((404, .error "User not found"), st)
      | some u =>
        let new_name := if name.truthy then name.val else u.name
        let new_email := if email.truthy then email.val else u.email
        match update_row st uid new_name new_email with
        | none => ((409, .error "Email already exists"), st)
        | some st' => ((200, .message "User updated"), st')

/-- View function delete_user (DELETE /users/<int:user_id>, lines 154-165). -/
def delete_user (st : DB) (uid : Nat) : Resp × DB :=
  let r := delete_row st uid
  if r.2 = 0 then ((404, .error "User not found"), r.1)
  else ((200, .message "User deleted"), r.1)

/-- HTTP method of a request. -/
inductive Method where
  | GET : Method
  | POST : Method
  | PUT : Method
  | DELETE : Method
deriving DecidableEq, Repr

/-- The int route converter of werkzeug, which backs the <int:user_id>
parameter: a path segment matches iff it is a non-empty run of decimal
digits, and its value is the usual base-10 reading. -/
def intSegment (s : String) : Option Nat :=
  if !s.data.isEmpty && s.data.all Char.isDigit then
    some (s.data.foldl (fun n c => 10 * n + (c.toNat - 48)) 0)
  else none

/-- Flask routing of the five @app.route declarations plus the 404
errorhandler (lines 60-172): a request whose path matches no route falls
through to not_found, which returns the generic 404 envelope.  (Flask
answers a matched path with an unregistered method with 405; no claim
depends on that distinction, so those requests are folded into the
fallthrough case here.) -/
def dispatch (st : DB) (now : String) (m : Method) (path : List String)
    (body : ReqBody) : Resp × DB :=
  match m, path with
  | .GET, [] => ((200, .home), st)
  | .GET, ["users"] => get_users st
  | .POST, ["users"] => create_user st now body
  | .GET, ["users", seg] =>
    match intSegment seg with
    | some uid => get_user st uid
    | none => ((404, .error "Endpoint not found"), st)
  | .PUT, ["users", seg] =>
    match intSegment seg with
    | some uid => update_user st uid body
    | none => ((404, .error "Endpoint not found"), st)
  | .DELETE, ["users", seg] =>
    match intSegment seg with
    | some uid => delete_user st uid
    | none => ((404, .error "Endpoint not found"), st)
  | _, _ => ((404, .error "Endpoint not found"), st)

/-- No two rows share an email (the UNIQUE constraint on email). -/
def emailsUnique (st : DB) : Prop :=
  st.rows.Pairwise (fun a b => a.email ≠ b.email)

/-- No two rows share an id (the PRIMARY KEY constraint on id). -/
def idsUnique (st : DB) : Prop :=
  st.rows.Pairwise (fun a b => a.id ≠ b.id)

/-- Well-formedness of a database state: every id is below the
AUTOINCREMENT counter, ids are unique (PRIMARY KEY) and emails are
unique (UNIQUE).  All three are enforced by sqlite, so every reachable
state is well-formed. -/
def WF (st : DB) : Prop :=
  (∀ r ∈ st.rows, r.id < st.nextId) ∧ idsUnique st ∧ emailsUnique st

/-! Basic facts about the storage layer. -/

theorem findUser_mem {st : DB} {uid : Nat} {u : User}
    (h : findUser st uid = some u) : u ∈ st.rows ∧ u.id = uid :=
  ⟨List.mem_of_find?_eq_some h, by simpa using List.find?_some h⟩

theorem findUser_eq_none {st : DB} {uid : Nat} :
    findUser st uid = none ↔ ∀ r ∈ st.rows, r.id ≠ uid := by
  simp [findUser, List.find?_eq_none]

theorem eq_of_id_eq {st : DB} (hids : idsUnique st) {a b : User}
    (ha : a ∈ st.rows) (hb : b ∈ st.rows) (h : a.id = b.id) : a = b := by
  by_contra hne
  exact (hids.forall (fun x y hxy => Ne.symm hxy) ha hb hne) h

theorem eq_of_email_eq {st : DB} (hem : emailsUnique st) {a b : User}
    (ha : a ∈ st.rows) (hb : b ∈ st.rows) (h : a.email = b.email) : a = b := by
  by_contra hne
  exact (hem.forall (fun x y hxy => Ne.symm hxy) ha hb hne) h

theorem filter_email_length :
    ∀ (l : List User), l.Pairwise (fun a b => a.email ≠ b.email) →
      ∀ u ∈ l, (l.filter (fun r => r.email == u.email)).length = 1
  | [], _, u, hu => by simp at hu
  | a :: l, hp, u, hu => by
    rw [List.pairwise_cons] at hp
    rcases List.mem_cons.mp hu with rfl | hul
    · rw [List.filter_cons_of_pos (by simp)]
      have hnil : l.filter (fun r => r.email == u.email) = [] := by
        rw [List.filter_eq_nil_iff]
        intro b hb
        simpa using Ne.symm (hp.1 b hb)
      simp [hnil]
    · rw [List.filter_cons_of_neg (by simpa using hp.1 u hul)]
      exact filter_email_length l hp.2 u hul

theorem insert_row_eq_some {st : DB} {nm em ca : String} {st' : DB}
    (h : insert_row st nm em ca = some st') :
    st' = ⟨st.rows ++ [⟨st.nextId, nm, em, ca⟩], st.nextId + 1⟩ ∧
      ∀ r ∈ st.rows, r.email ≠ em := by
  unfold insert_row at h
  split at h
  · exact absurd h (by simp)
  · next hc =>
    refine ⟨by injection h with h; exact h.symm, ?_⟩
    intro r hr
    have := (List.any_eq_false).mp (Bool.of_not_eq_true hc) r hr
    simpa using this

theorem insert_row_eq_none {st : DB} {nm em ca : String}
    (h : insert_row st nm em ca = none) : ∃ r ∈ st.rows, r.email = em := by
  unfold insert_row at h
  split at h
  · next hc => simpa using List.any_eq_true.mp hc
  · exact absurd h (by simp)

theorem insert_row_mem_eq_none {st : DB} {nm em ca : String} {u : User}
    (hu : u ∈ st.rows) (he : u.email = em) : insert_row st nm em ca = none := by
  unfold insert_row
  rw [if_pos (List.any_eq_true.mpr ⟨u, hu, by simp [he]⟩)]

theorem update_row_eq_some {st : DB} {uid : Nat} {nm em : String} {st' : DB}
    (h : update_row st uid nm em = some st') :
    st' = ⟨st.rows.map (fun r =>
        if r.id = uid then { r with name := nm, email := em } else r),
      st.nextId⟩ := by
  unfold update_row at h
  split at h
  · exact absurd h (by simp)
  · injection h with h; exact h.symm

theorem update_row_guard {st : DB} {uid : Nat} {nm em : String} {st' : DB}
    (h : update_row st uid nm em = some st') :
    (∀ r ∈ st.rows, r.id ≠ uid) ∨ (∀ r ∈ st.rows, r.id ≠ uid → r.email ≠ em) := by
  unfold update_row at h
  split at h
  · exact absurd h (by simp)
  · next hc =>
    rw [Bool.and_eq_true, not_and_or] at hc
    rcases hc with hc | hc
    · left
      intro r hr
      have := (List.any_eq_false).mp (Bool.of_not_eq_true hc) r hr
      simpa using this
    · right
      intro r hr hid
      have := (List.any_eq_false).mp (Bool.of_not_eq_true hc) r hr
      simp at this
      exact this hid

theorem update_row_eq_some_of {st : DB} {uid : Nat} {nm em : String}
    (hg : (∀ r ∈ st.rows, r.id ≠ uid) ∨ (∀ r ∈ st.rows, r.id ≠ uid → r.email ≠ em)) :
    update_row st uid nm em = some ⟨st.rows.map (fun r =>
        if r.id = uid then { r with name := nm, email := em } else r),
      st.nextId⟩ := by
  unfold update_row
  rw [if_neg]
  intro hc
  rw [Bool.and_eq_true] at hc
  rcases List.any_eq_true.mp hc.2 with ⟨r, hr, hrp⟩
  simp at hrp
  rcases hg with hg | hg
  · rcases List.any_eq_true.mp hc.1 with ⟨s, hs, hsp⟩
    simp at hsp
    exact hg s hs hsp
  · exact hg r hr hrp.1 hrp.2

/-! Branch lemmas for the view functions. -/

theorem create_user_valid {n e : Field} {o : Bool} (st : DB) (now : String)
    (hb : bodyTruthy n e o = true) (hn : n.truthy = true) (he : e.truthy = true) :
    create_user st now (.obj n e o) =
      match insert_row st n.val e.val now with
      | none => ((409, .error "Email already exists"), st)
      | some st' => ((201, .message "User created"), st') := by
  simp [create_user, hb, hn, he]

theorem update_user_merge {st : DB} {uid : Nat} {n e : Field} {o : Bool} {u : User}
    (hb : bodyTruthy n e o = true) (hne : n.truthy = true ∨ e.truthy = true)
    (hf : findUser st uid = some u) :
    update_user st uid (.obj n e o) =
      match update_row st uid (if n.truthy then n.val else u.name)
          (if e.truthy then e.val else u.email) with
      | none => ((409, .error "Email already exists"), st)
      | some st' => ((200, .message "User updated"), st') := by
  have hg : (!n.truthy && !e.truthy) = false := by
    rcases hne with h | h <;> simp [h]
  simp [update_user, hb, hg, hf]

theorem update_user_notfound {st : DB} {uid : Nat} {n e : Field} {o : Bool}
    (hb : bodyTruthy n e o = true) (hne : n.truthy = true ∨ e.truthy = true)
    (hf : findUser st uid = none) :
    update_user st uid (.obj n e o) = ((404, .error "User not found"), st) := by
  have hg : (!n.truthy && !e.truthy) = false := by
    rcases hne with h | h <;> simp [h]
  simp [update_user, hb, hg, hf]

theorem update_user_snd_of_ne {st : DB} {uid : Nat} {body : ReqBody}
    (h : (update_user st uid body).1.1 ≠ 200) : (update_user st uid body).2 = st := by
  cases body with
  | invalid => rfl
  | obj n e o =>
    cases hbv : bodyTruthy n e o with
    | false => simp [update_user, hbv]
    | true =>
      by_cases hne : n.truthy = true ∨ e.truthy = true
      · cases hf : findUser st uid with
        | none => rw [update_user_notfound hbv hne hf]
        | some u =>
          rw [update_user_merge hbv hne hf] at h ⊢
          cases hr : update_row st uid (if n.truthy then n.val else u.name)
              (if e.truthy then e.val else u.email) with
          | none => rfl
          | some st' => rw [hr] at h; simp at h
      · have hn : n.truthy = false := by
          cases hxn : n.truthy
          · rfl
          · exact absurd (Or.inl hxn) hne
        have he : e.truthy = false := by
          cases hxe : e.truthy
          · rfl
          · exact absurd (Or.inr hxe) hne
        simp [update_user, hbv, hn, he]

theorem delete_user_of_mem {st : DB} {uid : Nat} (hex : ∃ r ∈ st.rows, r.id = uid) :
    delete_user st uid =
      ((200, .message "User deleted"),
       ⟨st.rows.filter (fun r => r.id != uid), st.nextId⟩) := by
  have hlen : (st.rows.filter (fun r => r.id == uid)).length ≠ 0 := by
    rcases hex with ⟨r, hr, hid⟩
    have hmem : r ∈ st.rows.filter (fun r => r.id == uid) :=
      List.mem_filter.mpr ⟨hr, by simp [hid]⟩
    intro h0
    rw [List.length_eq_zero] at h0
    simp [h0] at hmem
  simp [delete_user, delete_row, hlen]

theorem delete_user_of_not_mem {st : DB} {uid : Nat}
    (hnone : ∀ r ∈ st.rows, r.id ≠ uid) :
    delete_user st uid = ((404, .error "User not found"), st) := by
  have h0 : st.rows.filter (fun r => r.id == uid) = [] := by
    rw [List.filter_eq_nil_iff]
    intro r hr
    simpa using hnone r hr
  have h1 : st.rows.filter (fun r => r.id != uid) = st.rows := by
    rw [List.filter_eq_self]
    intro r hr
    simpa using hnone r hr
  simp [delete_user, delete_row, h0, h1]

/-! Preservation of well-formedness by every operation. -/

theorem WF_insert_row {st st' : DB} {nm em ca : String} (hWF : WF st)
    (h : insert_row st nm em ca = some st') : WF st' := by
  obtain ⟨rfl, hfresh⟩ := insert_row_eq_some h
  obtain ⟨hbound, hids, hem⟩ := hWF
  refine ⟨?_, ?_, ?_⟩
  · intro r hr
    rcases List.mem_append.mp hr with hr | hr
    · exact Nat.lt_succ_of_lt (hbound r hr)
    · simp at hr
      subst hr
      exact Nat.lt_succ_self _
  · unfold idsUnique
    rw [List.pairwise_append]
    refine ⟨hids, by simp, ?_⟩
    intro a ha b hb
    simp at hb
    subst hb
    exact Nat.ne_of_lt (hbound a ha)
  · unfold emailsUnique
    rw [List.pairwise_append]
    refine ⟨hem, by simp, ?_⟩
    intro a ha b hb
    simp at hb
    subst hb
    exact hfresh a ha

theorem WF_update_row {st st' : DB} {uid : Nat} {nm em : String} (hWF : WF st)
    (h : update_row st uid nm em = some st') : WF st' := by
  have hg := update_row_guard h
  obtain rfl := update_row_eq_some h
  obtain ⟨hbound, hids, hem⟩ := hWF
  have hfid : ∀ r : User,
      (if r.id = uid then { r with name := nm, email := em } else r).id = r.id := by
    intro r
    split <;> rfl
  refine ⟨?_, ?_, ?_⟩
  · intro r' hr'
    rcases List.mem_map.mp hr' with ⟨r, hr, rfl⟩
    rw [hfid r]
    exact hbound r hr
  · unfold idsUnique
    rw [List.pairwise_map]
    exact hids.imp (fun {a b} hab => by rw [hfid a, hfid b]; exact hab)
  · unfold emailsUnique
    rw [List.pairwise_map]
    refine List.Pairwise.imp_of_mem ?_ (hids.and hem)
    intro a b ha hb hab
    obtain ⟨hid, hemail⟩ := hab
    rcases hg with hg | hg
    · rw [if_neg (hg a ha), if_neg (hg b hb)]
      exact hemail
    · by_cases hau : a.id = uid <;> by_cases hbu : b.id = uid
      · exact absurd (hau.trans hbu.symm) hid
      · rw [if_pos hau, if_neg hbu]
        exact Ne.symm (hg b hb hbu)
      · rw [if_neg hau, if_pos hbu]
        exact hg a ha hau
      · rw [if_neg hau, if_neg hbu]
        exact hemail

theorem WF_create_user {st : DB} (hWF : WF st) (now : String) (body : ReqBody) :
    WF (create_user st now body).2 := by
  cases body with
  | invalid => exact hWF
  | obj n e o =>
    cases hbv : bodyTruthy n e o with
    | false => simpa [create_user, hbv] using hWF
    | true =>
      cases hn : n.truthy <;> cases he : e.truthy
      · simpa [create_user, hbv, hn, he] using hWF
      · simpa [create_user, hbv, hn, he] using hWF
      · simpa [create_user, hbv, hn, he] using hWF
      · rw [create_user_valid st now hbv hn he]
        cases hr : insert_row st n.val e.val now with
        | none => exact hWF
        | some st' => exact WF_insert_row hWF hr

theorem WF_update_user {st : DB} (hWF : WF st) (uid : Nat) (body : ReqBody) :
    WF (update_user st uid body).2 := by
  cases body with
  | invalid => exact hWF
  | obj n e o =>
    cases hbv : bodyTruthy n e o with
    | false => simpa [update_user, hbv] using hWF
    | true =>
      by_cases hne : n.truthy = true ∨ e.truthy = true
      · cases hf : findUser st uid with
        | none => rw [update_user_notfound hbv hne hf]; exact hWF
        | some u =>
          rw [update_user_merge hbv hne hf]
          cases hr : update_row st uid (if n.truthy then n.val else u.name)
              (if e.truthy then e.val else u.email) with
          | none => exact hWF
          | some st' => exact WF_update_row hWF hr
      · have hn : n.truthy = false := by
          cases hxn : n.truthy
          · rfl
          · exact absurd (Or.inl hxn) hne
        have he : e.truthy = false := by
          cases hxe : e.truthy
          · rfl
          · exact absurd (Or.inr hxe) hne
        simpa [update_user, hbv, hn, he] using hWF

theorem WF_delete_user {st : DB} (hWF : WF st) (uid : Nat) :
    WF (delete_user st uid).2 := by
  obtain ⟨hbound, hids, hem⟩ := hWF
  have hsub : (st.rows.filter (fun r => r.id != uid)).Sublist st.rows :=
    List.filter_sublist _
  have hWF' : WF ⟨st.rows.filter (fun r => r.id != uid), st.nextId⟩ :=
    ⟨fun r hr => hbound r (hsub.subset hr), hids.sublist hsub, hem.sublist hsub⟩
  by_cases hz : (st.rows.filter (fun r => r.id == uid)).length = 0
  · simpa [delete_user, delete_row, hz] using hWF'
  · simpa [delete_user, delete_row, hz] using hWF'

theorem insert_row_eq_some_of {st : DB} {nm em ca : String}
    (hfresh : ∀ r ∈ st.rows, r.email ≠ em) :
    insert_row st nm em ca =
      some ⟨st.rows ++ [⟨st.nextId, nm, em, ca⟩], st.nextId + 1⟩ := by
  unfold insert_row
  rw [if_neg]
  intro hc
  rcases List.any_eq_true.mp hc with ⟨r, hr, hrp⟩
  exact hfresh r hr (by simpa using hrp)

/-! Concrete states used to witness the theorems below. -/

def annRow : User := ⟨1, "Ann", "ann@x.com", "2024-01-01T00:00:00"⟩

def bobRow : User := ⟨2, "Bob", "bob@x.com", "2024-01-02T00:00:00"⟩

def sampleDB : DB := ⟨[annRow, bobRow], 3⟩

theorem sampleDB_WF : WF sampleDB := by
  refine ⟨by decide, ?_, ?_⟩
  · unfold idsUnique
    decide
  · unfold emailsUnique
    decide

/-! The claims. -/

/-- C2: a POST /users carrying the email of an existing row (with a truthy
name) returns 409 with body error "Email already exists", leaves the table
unchanged, and exactly one row with that email persists. -/
theorem post_duplicate_email_conflict (st : DB) (hem : emailsUnique st)
    (u : User) (hu : u ∈ st.rows) (n : Field) (hn : n.truthy = true) (o : Bool)
    (now : String) (hue : u.email ≠ "") :
    create_user st now (.obj n (.str u.email) o) =
      ((409, RespBody.error "Email already exists"), st) ∧
    ((create_user st now (.obj n (.str u.email) o)).2.rows.filter
        (fun r => r.email == u.email)).length = 1 := by
  have hie : u.email.isEmpty = false := by
    cases hi : u.email.isEmpty
    · rfl
    · exact absurd ((String.isEmpty_iff u.email).mp hi) hue
  have he : (Field.str u.email).truthy = true := by
    simp [Field.truthy, hie]
  have hb : bodyTruthy n (.str u.email) o = true := by simp [bodyTruthy]
  have hnone : insert_row st n.val (Field.str u.email).val now = none :=
    insert_row_mem_eq_none hu rfl
  have heq : create_user st now (.obj n (.str u.email) o) =
      ((409, RespBody.error "Email already exists"), st) := by
    rw [create_user_valid st now hb hn he, hnone]
  refine ⟨heq, ?_⟩
  rw [heq]
  exact filter_email_length st.rows hem u hu

/-- Witness for C2 at a concrete state: posting Ann's email again against
sampleDB. -/
theorem post_duplicate_email_conflict_witness :
    emailsUnique sampleDB ∧ annRow ∈ sampleDB.rows ∧
    Field.truthy (.str "Carl") = true ∧ annRow.email ≠ "" ∧
    (create_user sampleDB "2024-02-01T00:00:00"
        (.obj (.str "Carl") (.str annRow.email) false) =
      ((409, RespBody.error "Email already exists"), sampleDB) ∧
    ((create_user sampleDB "2024-02-01T00:00:00"
        (.obj (.str "Carl") (.str annRow.email) false)).2.rows.filter
        (fun r => r.email == annRow.email)).length = 1) :=
  ⟨sampleDB_WF.2.2, by decide, by decide, by decide,
   post_duplicate_email_conflict sampleDB sampleDB_WF.2.2 annRow (by decide)
     (.str "Carl") (by decide) false "2024-02-01T00:00:00" (by decide)⟩

/-- C3: starting from any well-formed state (in particular one in which no
two rows share an email), after any POST /users, PUT /users/id or
DELETE /users/id no two rows share an email; the duplicate-producing
writes are rejected by the storage layer (insert_row and update_row
return none). -/
theorem email_uniqueness_invariant (st : DB) (hWF : WF st) (now : String)
    (body : ReqBody) (uid : Nat) :
    emailsUnique (create_user st now body).2 ∧
    emailsUnique (update_user st uid body).2 ∧
    emailsUnique (delete_user st uid).2 :=
  ⟨(WF_create_user hWF now body).2.2, (WF_update_user hWF uid body).2.2,
   (WF_delete_user hWF uid).2.2⟩

/-- Witness for C3 at a concrete state. -/
theorem email_uniqueness_invariant_witness :
    WF sampleDB ∧
    (emailsUnique (create_user sampleDB "t"
        (.obj .absent (.str "ann@x.com") false)).2 ∧
     emailsUnique (update_user sampleDB 2
        (.obj .absent (.str "ann@x.com") false)).2 ∧
     emailsUnique (delete_user sampleDB 2).2) :=
  ⟨sampleDB_WF,
   email_uniqueness_invariant sampleDB sampleDB_WF "t"
     (.obj .absent (.str "ann@x.com") false) 2⟩

/-- C6: for a state containing a row with the given id, the first DELETE
returns 200 with message "User deleted" and removes the row, a second
DELETE of the same id returns 404 with error "User not found", and the
state after two deletes equals the state after one. -/
theorem delete_idempotent (st : DB) (uid : Nat)
    (hex : ∃ r ∈ st.rows, r.id = uid) :
    (delete_user st uid).1 = (200, RespBody.message "User deleted") ∧
    (delete_user (delete_user st uid).2 uid).1 =
      (404, RespBody.error "User not found") ∧
    (delete_user (delete_user st uid).2 uid).2 = (delete_user st uid).2 := by
  have h1 := delete_user_of_mem hex
  have hnot : ∀ r ∈ (delete_user st uid).2.rows, r.id ≠ uid := by
    rw [h1]
    intro r hr
    simpa using List.of_mem_filter hr
  have h2 := delete_user_of_not_mem hnot
  exact ⟨by rw [h1], by rw [h2], by rw [h2]⟩

/-- Witness for C6: deleting user 1 from sampleDB twice. -/
theorem delete_idempotent_witness :
    (∃ r ∈ sampleDB.rows, r.id = 1) ∧
    ((delete_user sampleDB 1).1 = (200, RespBody.message "User deleted") ∧
     (delete_user (delete_user sampleDB 1).2 1).1 =
       (404, RespBody.error "User not found") ∧
     (delete_user (delete_user sampleDB 1).2 1).2 = (delete_user sampleDB 1).2) :=
  ⟨by decide, delete_idempotent sampleDB 1 (by decide)⟩

/-- C8: a GET /users/seg request whose path segment seg is not matched by
the int converter is answered by the routing layer with the generic 404
envelope error "Endpoint not found", and its body is never the handler's
error "User not found". -/
theorem nonint_id_routing_404 (st : DB) (now : String) (body : ReqBody)
    (seg : String) (h : intSegment seg = none) :
    dispatch st now .GET ["users", seg] body =
      ((404, RespBody.error "Endpoint not found"), st) ∧
    (dispatch st now .GET ["users", seg] body).1.2 ≠
      RespBody.error "User not found" := by
  have heq : dispatch st now .GET ["users", seg] body =
      ((404, RespBody.error "Endpoint not found"), st) := by
    simp [dispatch, h]
  refine ⟨heq, ?_⟩
  rw [heq]
  intro hcontra
  simp at hcontra

/-- Witness for C8 at the path segment "abc". -/
theorem nonint_id_routing_404_witness :
    intSegment "abc" = none ∧
    (dispatch sampleDB "t" .GET ["users", "abc"] .invalid =
      ((404, RespBody.error "Endpoint not found"), sampleDB) ∧
    (dispatch sampleDB "t" .GET ["users", "abc"] .invalid).1.2 ≠
      RespBody.error "User not found") :=
  ⟨by decide, nonint_id_routing_404 sampleDB "t" .invalid "abc" (by decide)⟩

/-- C9: every PUT /users/id that answers 200 changes the table exactly by
rewriting the name and email of the rows whose id is the target id: ids
and created_at timestamps of all rows, all other rows entirely, and the
AUTOINCREMENT counter are unchanged. -/
theorem put_frame_effect (st : DB) (uid : Nat) (body : ReqBody)
    (h : (update_user st uid body).1.1 = 200) :
    ∃ nm em, (update_user st uid body).2 =
      ⟨st.rows.map (fun r =>
          if r.id = uid then { r with name := nm, email := em } else r),
       st.nextId⟩ := by
  cases body with
  | invalid => simp [update_user] at h
  | obj n e o =>
    cases hbv : bodyTruthy n e o with
    | false => simp [update_user, hbv] at h
    | true =>
      by_cases hne : n.truthy = true ∨ e.truthy = true
      · cases hf : findUser st uid with
        | none => rw [update_user_notfound hbv hne hf] at h; simp at h
        | some u =>
          rw [update_user_merge hbv hne hf] at h ⊢
          cases hr : update_row st uid (if n.truthy then n.val else u.name)
              (if e.truthy then e.val else u.email) with
          | none => rw [hr] at h; simp at h
          | some st' =>
            exact ⟨(if n.truthy then n.val else u.name),
              (if e.truthy then e.val else u.email), update_row_eq_some hr⟩
      · have hn : n.truthy = false := by
          cases hxn : n.truthy
          · rfl
          · exact absurd (Or.inl hxn) hne
        have he : e.truthy = false := by
          cases hxe : e.truthy
          · rfl
          · exact absurd (Or.inr hxe) hne
        simp [update_user, hbv, hn, he] at h

/-- Witness for C9: a successful name-only PUT against sampleDB. -/
theorem put_frame_effect_witness :
    (update_user sampleDB 1 (.obj (.str "Anna") .absent false)).1.1 = 200 ∧
    ∃ nm em, (update_user sampleDB 1 (.obj (.str "Anna") .absent false)).2 =
      ⟨sampleDB.rows.map (fun r =>
          if r.id = 1 then { r with name := nm, email := em } else r),
       sampleDB.nextId⟩ :=
  ⟨by decide, put_frame_effect sampleDB 1 (.obj (.str "Anna") .absent false)
    (by decide)⟩

/-- C10: a PUT /users/id that answers 409 (email collision) leaves the
stored table unchanged: the failed UPDATE is never committed. -/
theorem put_conflict_state_unchanged (st : DB) (uid : Nat) (body : ReqBody)
    (h : (update_user st uid body).1.1 = 409) :
    (update_user st uid body).2 = st := by
  apply update_user_snd_of_ne
  rw [h]
  decide

/-- Witness for C10: a PUT moving Ann onto Bob's email answers 409 and
leaves sampleDB unchanged. -/
theorem put_conflict_state_unchanged_witness :
    (update_user sampleDB 1 (.obj .absent (.str "bob@x.com") false)).1.1 = 409 ∧
    (update_user sampleDB 1 (.obj .absent (.str "bob@x.com") false)).2 = sampleDB :=
  ⟨by decide, put_conflict_state_unchanged sampleDB 1
    (.obj .absent (.str "bob@x.com") false) (by decide)⟩

/-- C1 as stated is false: a PUT on a nonexistent id does not return 404
for every JSON body; with the empty-object body the handler's
`if not data` check fires first and returns 400 error "JSON body
required" before the id is ever looked up. -/
theorem put_missing_404_counterexample :
    ¬ (∀ (st : DB) (uid : Nat) (n e : Field) (o : Bool),
        findUser st uid = none →
        (update_user st uid (.obj n e o)).1 =
          (404, RespBody.error "User not found")) := by
  intro h
  exact absurd (h emptyDB 1 .absent .absent false rfl) (by decide)

/-- C1 (amended): for every PUT /users/id whose id matches no stored row
and whose JSON body passes the handler's body checks (a non-empty object
with at least one truthy name or email field), the response is 404 with
body error "User not found" and the table is unchanged; an empty object
or a body with only falsy name/email fields instead yields 400 before
the id is looked up. -/
theorem put_missing_404 (st : DB) (uid : Nat) (n e : Field) (o : Bool)
    (hb : bodyTruthy n e o = true) (hne : n.truthy = true ∨ e.truthy = true)
    (habs : findUser st uid = none) :
    update_user st uid (.obj n e o) =
      ((404, RespBody.error "User not found"), st) :=
  update_user_notfound hb hne habs

/-- Witness for the amended C1: a name-only PUT of id 1 against the empty
database. -/
theorem put_missing_404_witness :
    bodyTruthy (.str "Zed") .absent false = true ∧
    (Field.truthy (.str "Zed") = true ∨ Field.truthy .absent = true) ∧
    findUser emptyDB 1 = none ∧
    update_user emptyDB 1 (.obj (.str "Zed") .absent false) =
      ((404, RespBody.error "User not found"), emptyDB) :=
  ⟨by decide, Or.inl (by decide), rfl,
   put_missing_404 emptyDB 1 (.str "Zed") .absent false (by decide)
     (Or.inl (by decide)) rfl⟩

/-- C4 as stated is false: it requires every body with a missing or empty
name or email to be answered 400 error "Name and email are required",
but the empty-object body (name and email both absent, no other keys) is
caught by the `if not data` check and answered 400 error "JSON body
required" instead. -/
theorem post_validation_counterexample :
    ¬ (∀ (st : DB) (now : String) (n e : Field) (o : Bool),
        (n.truthy = false ∨ e.truthy = false) →
        create_user st now (.obj n e o) =
          ((400, RespBody.error "Name and email are required"), st)) := by
  intro h
  exact absurd (h emptyDB "t" .absent .absent false (Or.inl rfl)) (by decide)

/-- C4 (amended): POST /users answers 400 error "JSON body required" on a
missing or invalid body and also on an empty JSON object; 400 error
"Name and email are required" on a non-empty object whose name or email
is missing or falsy; and on a non-empty object with truthy name and
email and a fresh email it inserts a row carrying exactly those values
with created_at set to the current time, and answers 201 with the
confirmation message "User created" (not the created resource). -/
theorem post_users_contract (st : DB) (now : String) :
    create_user st now .invalid =
      ((400, RespBody.error "JSON body required"), st) ∧
    (∀ (n e : Field) (o : Bool), bodyTruthy n e o = false →
      create_user st now (.obj n e o) =
        ((400, RespBody.error "JSON body required"), st)) ∧
    (∀ (n e : Field) (o : Bool), bodyTruthy n e o = true →
      (n.truthy = false ∨ e.truthy = false) →
      create_user st now (.obj n e o) =
        ((400, RespBody.error "Name and email are required"), st)) ∧
    (∀ (n e : Field) (o : Bool), n.truthy = true → e.truthy = true →
      (∀ r ∈ st.rows, r.email ≠ e.val) →
      create_user st now (.obj n e o) =
        ((201, RespBody.message "User created"),
         ⟨st.rows ++ [⟨st.nextId, n.val, e.val, now⟩], st.nextId + 1⟩)) := by
  refine ⟨rfl, ?_, ?_, ?_⟩
  · intro n e o hb
    simp [create_user, hb]
  · intro n e o hb hor
    rcases hor with hh | hh <;> simp [create_user, hb, hh]
  · intro n e o hn he hfresh
    have hb : bodyTruthy n e o = true := by
      cases e with
      | absent => simp [Field.truthy] at he
      | null => simp [Field.truthy] at he
      | str s => simp [bodyTruthy]
    rw [create_user_valid st now hb hn he, insert_row_eq_some_of hfresh]

/-- Witness for the amended C4: all four branches exercised against the
empty database. -/
theorem post_users_contract_witness :
    create_user emptyDB "t" .invalid =
      ((400, RespBody.error "JSON body required"), emptyDB) ∧
    create_user emptyDB "t" (.obj .absent .absent false) =
      ((400, RespBody.error "JSON body required"), emptyDB) ∧
    create_user emptyDB "t" (.obj (.str "Ann") (.str "") false) =
      ((400, RespBody.error "Name and email are required"), emptyDB) ∧
    create_user emptyDB "t" (.obj (.str "Ann") (.str "ann@x.com") false) =
      ((201, RespBody.message "User created"),
       ⟨emptyDB.rows ++ [⟨emptyDB.nextId, Field.val (.str "Ann"),
          Field.val (.str "ann@x.com"), "t"⟩], emptyDB.nextId + 1⟩) :=
  ⟨(post_users_contract emptyDB "t").1,
   (post_users_contract emptyDB "t").2.1 .absent .absent false (by decide),
   (post_users_contract emptyDB "t").2.2.1 (.str "Ann") (.str "") false
     (by decide) (Or.inr (by decide)),
   (post_users_contract emptyDB "t").2.2.2 (.str "Ann") (.str "ann@x.com")
     false (by decide) (by decide) (by decide)⟩

/-- C5: against a well-formed state holding a row u at the requested id, a
PUT supplying only a name replaces that row's name and keeps its email,
and a PUT supplying only an email (fresh for the other rows) replaces
that row's email and keeps its name; in both cases the response is 200
with message "User updated". -/
theorem put_partial_update (st : DB) (hWF : WF st) (uid : Nat) (u : User)
    (hf : findUser st uid = some u) :
    (∀ (nm : String), nm ≠ "" → ∀ (e : Field), e.truthy = false → ∀ (o : Bool),
      update_user st uid (.obj (.str nm) e o) =
        ((200, RespBody.message "User updated"),
         ⟨st.rows.map (fun r =>
             if r.id = uid then { r with name := nm } else r),
          st.nextId⟩)) ∧
    (∀ (em : String), em ≠ "" → ∀ (n : Field), n.truthy = false → ∀ (o : Bool),
      (∀ r ∈ st.rows, r.id ≠ uid → r.email ≠ em) →
      update_user st uid (.obj n (.str em) o) =
        ((200, RespBody.message "User updated"),
         ⟨st.rows.map (fun r =>
             if r.id = uid then { r with email := em } else r),
          st.nextId⟩)) := by
  obtain ⟨hu, huid⟩ := findUser_mem hf
  obtain ⟨hbound, hids, hem⟩ := hWF
  constructor
  · intro nm hnm e he o
    have hin : nm.isEmpty = false := by
      cases hi : nm.isEmpty
      · rfl
      · exact absurd ((String.isEmpty_iff nm).mp hi) hnm
    have hnt : (Field.str nm).truthy = true := by simp [Field.truthy, hin]
    have hb : bodyTruthy (.str nm) e o = true := by simp [bodyTruthy]
    rw [update_user_merge hb (Or.inl hnt) hf]
    have harg1 : (if (Field.str nm).truthy = true then (Field.str nm).val
        else u.name) = nm := by simp [hnt, Field.val]
    have harg2 : (if e.truthy = true then e.val else u.email) = u.email := by
      simp [he]
    rw [harg1, harg2]
    have hguard : (∀ r ∈ st.rows, r.id ≠ uid) ∨
        (∀ r ∈ st.rows, r.id ≠ uid → r.email ≠ u.email) := by
      right
      intro r hr hrid hre
      have hru : r = u := eq_of_email_eq hem hr hu hre
      exact hrid (hru ▸ huid)
    rw [update_row_eq_some_of hguard]
    have hmap : st.rows.map (fun r =>
          if r.id = uid then { r with name := nm, email := u.email } else r)
        = st.rows.map (fun r =>
          if r.id = uid then { r with name := nm } else r) := by
      apply List.map_congr_left
      intro r hr
      by_cases hru : r.id = uid
      · rw [if_pos hru, if_pos hru]
        have : r = u := eq_of_id_eq hids hr hu (hru.trans huid.symm)
        subst this
        rfl
      · rw [if_neg hru, if_neg hru]
    rw [hmap]
  · intro em hem2 n hn o hfree
    have hie : em.isEmpty = false := by
      cases hi : em.isEmpty
      · rfl
      · exact absurd ((String.isEmpty_iff em).mp hi) hem2
    have het : (Field.str em).truthy = true := by simp [Field.truthy, hie]
    have hb : bodyTruthy n (.str em) o = true := by simp [bodyTruthy]
    rw [update_user_merge hb (Or.inr het) hf]
    have harg1 : (if n.truthy = true then n.val else u.name) = u.name := by
      simp [hn]
    have harg2 : (if (Field.str em).truthy = true then (Field.str em).val
        else u.email) = em := by simp [het, Field.val]
    rw [harg1, harg2]
    rw [update_row_eq_some_of (Or.inr hfree)]
    have hmap : st.rows.map (fun r =>
          if r.id = uid then { r with name := u.name, email := em } else r)
        = st.rows.map (fun r =>
          if r.id = uid then { r with email := em } else r) := by
      apply List.map_congr_left
      intro r hr
      by_cases hru : r.id = uid
      · rw [if_pos hru, if_pos hru]
        have : r = u := eq_of_id_eq hids hr hu (hru.trans huid.symm)
        subst this
        rfl
      · rw [if_neg hru, if_neg hru]
    rw [hmap]

/-- Witness for C5: a name-only and an email-only PUT of user 1 against
sampleDB. -/
theorem put_partial_update_witness :
    WF sampleDB ∧ findUser sampleDB 1 = some annRow ∧
    update_user sampleDB 1 (.obj (.str "Anna") .absent false) =
      ((200, RespBody.message "User updated"),
       ⟨sampleDB.rows.map (fun r =>
           if r.id = 1 then { r with name := "Anna" } else r),
        sampleDB.nextId⟩) ∧
    update_user sampleDB 1 (.obj .null (.str "ann2@x.com") false) =
      ((200, RespBody.message "User updated"),
       ⟨sampleDB.rows.map (fun r =>
           if r.id = 1 then { r with email := "ann2@x.com" } else r),
        sampleDB.nextId⟩) :=
  ⟨sampleDB_WF, rfl,
   (put_partial_update sampleDB sampleDB_WF 1 annRow rfl).1 "Anna"
     (by decide) .absent (by decide) false,
   (put_partial_update sampleDB sampleDB_WF 1 annRow rfl).2 "ann2@x.com"
     (by decide) .null (by decide) false (by decide)⟩

/-- The three request forms of a field that the spec calls falsy: empty
string, null value, absent key. -/
def falsyForm (f : Field) : Prop := f = .absent ∨ f = .null ∨ f = .str ""

/-- Two fields are observationally equivalent to the handlers: both truthy
with the same string value, or both falsy. -/
def Field.equiv (f g : Field) : Prop :=
  (f.truthy = true ∧ g.truthy = true ∧ f.val = g.val) ∨
  (f.truthy = false ∧ g.truthy = false)

/-- C7 as stated is false: the three falsy forms of a field are not always
interchangeable.  Swapping the email field of a POST body between absent
and the empty string, with the name key absent and no other keys,
changes the response: with email absent the body is the empty object and
the handler answers 400 error "JSON body required", while with email ""
the body is a non-empty dict and the handler answers 400 error "Name and
email are required". -/
theorem falsy_uniformity_counterexample :
    ¬ (∀ (st : DB) (now : String) (uid : Nat) (n e1 e2 : Field) (o : Bool),
        falsyForm e1 → falsyForm e2 →
        create_user st now (.obj n e1 o) = create_user st now (.obj n e2 o) ∧
        update_user st uid (.obj n e1 o) = update_user st uid (.obj n e2 o)) := by
  intro h
  have hc := (h emptyDB "t" 1 .absent .absent (.str "") false (Or.inl rfl)
    (Or.inr (Or.inr rfl))).1
  exact absurd hc (by decide)

/-- C7 (amended): the falsy forms (empty string, null, absent key) are
treated identically as "not provided" by both POST /users and
PUT /users/id whenever the request body stays a non-empty object; the
three forms differ only through the body-emptiness check, since a field
that is the object's only key makes the whole body empty when absent but
not when null or empty-string. -/
theorem falsy_uniformity_nonempty (st : DB) (now : String) (uid : Nat)
    (n1 n2 e1 e2 : Field) (o1 o2 : Bool)
    (hn : Field.equiv n1 n2) (he : Field.equiv e1 e2)
    (h1 : bodyTruthy n1 e1 o1 = true) (h2 : bodyTruthy n2 e2 o2 = true) :
    create_user st now (.obj n1 e1 o1) = create_user st now (.obj n2 e2 o2) ∧
    update_user st uid (.obj n1 e1 o1) = update_user st uid (.obj n2 e2 o2) := by
  have hnt : n1.truthy = n2.truthy := by
    rcases hn with ⟨a, b, _⟩ | ⟨a, b⟩ <;> rw [a, b]
  have het : e1.truthy = e2.truthy := by
    rcases he with ⟨a, b, _⟩ | ⟨a, b⟩ <;> rw [a, b]
  have hargn : ∀ s : String,
      (if n1.truthy = true then n1.val else s) =
      (if n2.truthy = true then n2.val else s) := by
    intro s
    rcases hn with ⟨a, b, c⟩ | ⟨a, b⟩
    · rw [if_pos a, if_pos b, c]
    · rw [if_neg (by simp [a]), if_neg (by simp [b])]
  have harge : ∀ s : String,
      (if e1.truthy = true then e1.val else s) =
      (if e2.truthy = true then e2.val else s) := by
    intro s
    rcases he with ⟨a, b, c⟩ | ⟨a, b⟩
    · rw [if_pos a, if_pos b, c]
    · rw [if_neg (by simp [a]), if_neg (by simp [b])]
  constructor
  · rcases hn with ⟨a1, a2, av⟩ | ⟨a1, a2⟩ <;>
      rcases he with ⟨b1, b2, bv⟩ | ⟨b1, b2⟩
    · rw [create_user_valid st now h1 a1 b1, create_user_valid st now h2 a2 b2,
        av, bv]
    · simp [create_user, h1, h2, a1, a2, b1, b2]
    · simp [create_user, h1, h2, a1, a2, b1, b2]
    · simp [create_user, h1, h2, a1, a2, b1, b2]
  · by_cases hne1 : n1.truthy = true ∨ e1.truthy = true
    · have hne2 : n2.truthy = true ∨ e2.truthy = true := by
        rcases hne1 with hx | hx
        · exact Or.inl (hnt ▸ hx)
        · exact Or.inr (het ▸ hx)
      cases hf : findUser st uid with
      | none =>
        rw [update_user_notfound h1 hne1 hf, update_user_notfound h2 hne2 hf]
      | some u =>
        rw [update_user_merge h1 hne1 hf, update_user_merge h2 hne2 hf,
          hargn u.name, harge u.email]
    · have ha1 : n1.truthy = false := by
        cases hxx : n1.truthy
        · rfl
        · exact absurd (Or.inl hxx) hne1
      have hb1 : e1.truthy = false := by
        cases hxx : e1.truthy
        · rfl
        · exact absurd (Or.inr hxx) hne1
      have ha2 : n2.truthy = false := hnt ▸ ha1
      have hb2 : e2.truthy = false := het ▸ hb1
      simp [update_user, h1, h2, ha1, hb1, ha2, hb2]

/-- Witness for the amended C7: null versus empty-string email, with a
truthy name, behave identically for POST and PUT against sampleDB. -/
theorem falsy_uniformity_nonempty_witness :
    Field.equiv (.str "Zoe") (.str "Zoe") ∧ Field.equiv .null (.str "") ∧
    bodyTruthy (.str "Zoe") .null false = true ∧
    bodyTruthy (.str "Zoe") (.str "") false = true ∧
    (create_user sampleDB "t" (.obj (.str "Zoe") .null false) =
      create_user sampleDB "t" (.obj (.str "Zoe") (.str "") false) ∧
     update_user sampleDB 1 (.obj (.str "Zoe") .null false) =
      update_user sampleDB 1 (.obj (.str "Zoe") (.str "") false)) :=
  ⟨Or.inl (by decide), Or.inr (by decide), by decide, by decide,
   falsy_uniformity_nonempty sampleDB "t" 1 (.str "Zoe") (.str "Zoe") .null
     (.str "") false false (Or.inl (by decide)) (Or.inr (by decide))
     (by decide) (by decide)⟩

end FlaskUsers
